import Mathlib

/-!
Shallow embedding of `src/copy-products.ts` (matthewvolk/bc-scripts).

The script migrates catalog data between sales channels of a BigCommerce
store.  Its logic-bearing parts are:

  * four environment accessors (`getApiOrigin`, `getStoreHash`,
    `getAccessToken`, `getChannelId`), which use JavaScript truthiness
    (`assert(x)` fails on `undefined`, the empty string, `0` and `NaN`);
  * a `fetch` wrapper `bigcommerce` that builds the request URL
    `{origin}/stores/{storeHash}{path}` and merges default headers with
    caller-supplied ones (object-spread: later keys win);
  * three data transforms: `buildCategoriesForNewTree`,
    `buildProductCategoryAssignmentsForNewCategories` (which throws on a
    falsy lookup result) and `buildProductChannelAssignmentsForNewChannel`;
  * two `Map` constructions (`categoriesMap`, `createdCategoriesMap`) from
    entry lists, where a later entry with the same key overwrites an
    earlier one.

JavaScript `process.env` values are `Option String` (unset = `none`);
numbers are modelled as `Int`; a thrown `Error` is the `.error` branch of
`Except String`; `parseInt(s, 10)` returning `NaN` is `none`.
-/

/-- An entry list looked up with JavaScript `Map` semantics: the `Map`
constructor inserts entries in order and a later entry with an equal key
overwrites an earlier one, so `get` returns the value of the LAST entry
whose key matches (or `none` when no entry matches).  The same semantics
models lookup in an object built by spreading later properties over
earlier ones. -/
def jsMapGet {α β : Type} [DecidableEq α] : List (α × β) → α → Option β
  | [], _ => none
  | (k', v) :: rest, k =>
    match jsMapGet rest k with
    | some v' => some v'
    | none => if k' = k then some v else none

/-- JavaScript `parseInt(s, 10)`: skip leading whitespace, read an optional
sign, then the maximal prefix of decimal digits; `NaN` (here `none`) when
that prefix is empty. -/
def jsParseDigits (cs : List Char) : Option Nat :=
  let ds := cs.takeWhile (fun c => c.isDigit)
  if ds.isEmpty then none
  else some (ds.foldl (fun acc c => acc * 10 + (c.toNat - 48)) 0)

/-- JavaScript `parseInt(s, 10)` on a whole string, `none` for `NaN`. -/
def jsParseInt (s : String) : Option Int :=
  match s.toList.dropWhile (fun c => c.isWhitespace) with
  | '-' :: rest => (jsParseDigits rest).map (fun n => -(n : Int))
  | '+' :: rest => (jsParseDigits rest).map (fun n => (n : Int))
  | cs => (jsParseDigits cs).map (fun n => (n : Int))

/-- The process environment variables the script reads
(`process.env.BIGCOMMERCE_*`); an unset variable is `none`. -/
structure Env where
  apiOrigin : Option String
  storeHash : Option String
  accessToken : Option String
  channelId : Option String
deriving DecidableEq

/-- `getApiOrigin()`: `process.env.BIGCOMMERCE_API_ORIGIN || "https://api.bigcommerce.com"`.
The `||` takes the default when the value is falsy (unset or empty). -/
def getApiOrigin (env : Env) : String :=
  match env.apiOrigin with
  | none => "https://api.bigcommerce.com"
  | some s => if s = "" then "https://api.bigcommerce.com" else s

/-- `getStoreHash()`: asserts the variable is truthy (set and non-empty). -/
def getStoreHash (env : Env) : Except String String :=
  match env.storeHash with
  | none => .error "BIGCOMMERCE_STORE_HASH missing in env"
  | some s =>
    if s = "" then .error "BIGCOMMERCE_STORE_HASH missing in env" else .ok s

/-- `getAccessToken()`: asserts the variable is truthy (set and non-empty). -/
def getAccessToken (env : Env) : Except String String :=
  match env.accessToken with
  | none => .error "BIGCOMMERCE_ACCESS_TOKEN missing in env"
  | some s =>
    if s = "" then .error "BIGCOMMERCE_ACCESS_TOKEN missing in env" else .ok s

/-- `getChannelId()`: asserts the variable is truthy (set, non-empty), then
asserts `parseInt(channelId, 10)` is truthy — which fails both when the
parse gives `NaN` and when it gives `0` — and returns the parsed integer.
A pure function of the environment: it performs no network call. -/
def getChannelId (env : Env) : Except String Int :=
  match env.channelId with
  | none => .error "BIGCOMMERCE_CHANNEL_ID missing in env"
  | some s =>
    if s = "" then .error "BIGCOMMERCE_CHANNEL_ID missing in env"
    else
      match jsParseInt s with
      | none => .error "BIGCOMMERCE_CHANNEL_ID must be a number"
      | some n =>
        if n = 0 then .error "BIGCOMMERCE_CHANNEL_ID must be a number"
        else .ok n

/-- The observable request built by the `bigcommerce` fetch wrapper: the
URL it passes to `fetch` and the headers object, kept as the entry list
`defaults ++ callerHeaders` and read with `jsMapGet` (so a caller-supplied
header with a colliding key overrides the default, as the object spread
`{...defaults, ...headers}` does). -/
structure Request where
  url : String
  headers : List (String × String)
deriving DecidableEq

/-- `bigcommerce(path, options)`: resolves origin, store hash and access
token, then issues a request to `{apiOrigin}/stores/{storeHash}{path}`
with default headers `accept`, `content-type` and `x-auth-token`
spread-merged with the caller's headers (caller wins on collision). -/
def bigcommerce (env : Env) (path : String) (headers : List (String × String)) :
    Except String Request :=
  match getStoreHash env with
  | .error e => .error e
  | .ok storeHash =>
    match getAccessToken env with
    | .error e => .error e
    | .ok accessToken =>
      .ok
        { url := getApiOrigin env ++ "/stores/" ++ storeHash ++ path
          headers :=
            [("accept", "application/json"),
             ("content-type", "application/json"),
             ("x-auth-token", accessToken)] ++ headers }

/-- A category as returned by the catalog API:
`{category_id, name, sort_order}`. -/
structure Category where
  category_id : Int
  name : String
  sort_order : Int
deriving DecidableEq

/-- An element of the array `buildCategoriesForNewTree` produces: exactly
the fields `{name, sort_order, tree_id}` — no `category_id`. -/
structure CategoryForNewTree where
  name : String
  sort_order : Int
  tree_id : Int
deriving DecidableEq

/-- `buildCategoriesForNewTree(categories, newTreeId)`: projects
`{name, sort_order}` from each source category and attaches
`tree_id = newTreeId`, dropping `category_id`. -/
def buildCategoriesForNewTree (categories : List Category) (newTreeId : Int) :
    List CategoryForNewTree :=
  categories.map (fun c => { name := c.name, sort_order := c.sort_order, tree_id := newTreeId })

/-- A product-to-category assignment `{product_id, category_id}`. -/
structure ProductCategoryAssignment where
  product_id : Int
  category_id : Int
deriving DecidableEq

/-- A product-to-channel assignment `{product_id, channel_id}`. -/
structure ProductChannelAssignment where
  product_id : Int
  channel_id : Int
deriving DecidableEq

/-- The body of the arrow function inside
`buildProductCategoryAssignmentsForNewCategories`: look the assignment's
`category_id` up in `categoriesMap`; `throw` if the result is falsy
(`undefined` — absent key — or the empty string); look the name up in
`createdCategoriesMap`; `throw` if that result is falsy (`undefined` or
`0`); otherwise emit `{product_id, category_id: newCategoryId}`. -/
def translateAssignment (categoriesMap : List (Int × String))
    (createdCategoriesMap : List (String × Int))
    (assign : ProductCategoryAssignment) :
    Except String ProductCategoryAssignment :=
  match jsMapGet categoriesMap assign.category_id with
  | none =>
    .error ("Stencil category name not found for category ID " ++ toString assign.category_id)
  | some categoryName =>
    if categoryName = "" then
      .error ("Stencil category name not found for category ID " ++ toString assign.category_id)
    else
      match jsMapGet createdCategoriesMap categoryName with
      | none =>
        .error ("Catalyst category ID not found for category name " ++ categoryName)
      | some newCategoryId =>
        if newCategoryId = 0 then
          .error ("Catalyst category ID not found for category name " ++ categoryName)
        else .ok { product_id := assign.product_id, category_id := newCategoryId }

/-- `buildProductCategoryAssignmentsForNewCategories(assignments, categoriesMap, createdCategoriesMap)`:
`assignments.map(...)` where the callback throws; a throw aborts the whole
map, so this is a left-to-right fail-fast traversal that either returns
all translated assignments or the first error, never a partial result. -/
def buildProductCategoryAssignmentsForNewCategories
    (productCategoryAssignments : List ProductCategoryAssignment)
    (categoriesMap : List (Int × String))
    (createdCategoriesMap : List (String × Int)) :
    Except String (List ProductCategoryAssignment) :=
  match productCategoryAssignments with
  | [] => .ok []
  | assign :: rest =>
    match translateAssignment categoriesMap createdCategoriesMap assign with
    | .error e => .error e
    | .ok translated =>
      match buildProductCategoryAssignmentsForNewCategories rest categoriesMap createdCategoriesMap with
      | .error e => .error e
      | .ok restTranslated => .ok (translated :: restTranslated)

/-- `buildProductChannelAssignmentsForNewChannel(productChannelAssignments)`:
resolves the target channel with `getChannelId()` (throwing on bad
configuration), then rewrites every assignment's `channel_id` to it,
keeping only `product_id` from the input. -/
def buildProductChannelAssignmentsForNewChannel (env : Env)
    (productChannelAssignments : List ProductChannelAssignment) :
    Except String (List ProductChannelAssignment) :=
  match getChannelId env with
  | .error e => .error e
  | .ok channelId =>
    .ok (productChannelAssignments.map
      (fun a => { product_id := a.product_id, channel_id := channelId }))

/-- The top-level `categoriesMap`: `new Map(categories.map(cat => [cat.category_id, cat.name]))`. -/
def mkCategoriesMap (categories : List Category) : List (Int × String) :=
  categories.map (fun cat => (cat.category_id, cat.name))

/-- The top-level `createdCategoriesMap`: `new Map(createdCategories.map(cat => [cat.name, cat.category_id]))`. -/
def mkCreatedCategoriesMap (createdCategories : List Category) : List (String × Int) :=
  createdCategories.map (fun cat => (cat.name, cat.category_id))

/-! ### Lemmas about map lookup and the fail-fast traversal -/

theorem jsMapGet_append {α β : Type} [DecidableEq α] (l1 l2 : List (α × β)) (k : α) :
    jsMapGet (l1 ++ l2) k =
      match jsMapGet l2 k with
      | some v => some v
      | none => jsMapGet l1 k := by
  induction l1 with
  | nil =>
    simp only [List.nil_append]
    cases jsMapGet l2 k <;> simp [jsMapGet]
  | cons p t ih =>
    obtain ⟨k', v⟩ := p
    simp only [List.cons_append, jsMapGet, List.append_eq]
    rw [ih]
    cases jsMapGet l2 k <;> cases jsMapGet t k <;> simp

theorem jsMapGet_eq_none {α β : Type} [DecidableEq α] (l : List (α × β)) (k : α)
    (h : ∀ p ∈ l, p.1 ≠ k) : jsMapGet l k = none := by
  induction l with
  | nil => rfl
  | cons p t ih =>
    obtain ⟨k', v⟩ := p
    have hk : k' ≠ k := h (k', v) (List.mem_cons_self _ _)
    have ht : jsMapGet t k = none := ih (fun q hq => h q (List.mem_cons_of_mem _ hq))
    simp [jsMapGet, ht, hk]

theorem translateAssignment_ok (cm : List (Int × String)) (ccm : List (String × Int))
    (a : ProductCategoryAssignment) (name : String) (newId : Int)
    (h1 : jsMapGet cm a.category_id = some name) (h2 : name ≠ "")
    (h3 : jsMapGet ccm name = some newId) (h4 : newId ≠ 0) :
    translateAssignment cm ccm a = .ok { product_id := a.product_id, category_id := newId } := by
  simp [translateAssignment, h1, h2, h3, h4]

theorem translateAssignment_error_id (cm : List (Int × String)) (ccm : List (String × Int))
    (a : ProductCategoryAssignment)
    (h : jsMapGet cm a.category_id = none ∨ jsMapGet cm a.category_id = some "") :
    translateAssignment cm ccm a =
      .error ("Stencil category name not found for category ID " ++ toString a.category_id) := by
  rcases h with h | h <;> simp [translateAssignment, h]

theorem translateAssignment_error_name (cm : List (Int × String)) (ccm : List (String × Int))
    (a : ProductCategoryAssignment) (name : String)
    (h1 : jsMapGet cm a.category_id = some name) (h2 : name ≠ "")
    (h3 : jsMapGet ccm name = none ∨ jsMapGet ccm name = some 0) :
    translateAssignment cm ccm a =
      .error ("Catalyst category ID not found for category name " ++ name) := by
  rcases h3 with h3 | h3 <;> simp [translateAssignment, h1, h2, h3]

theorem build_singleton (cm : List (Int × String)) (ccm : List (String × Int))
    (a : ProductCategoryAssignment) :
    buildProductCategoryAssignmentsForNewCategories [a] cm ccm =
      match translateAssignment cm ccm a with
      | .error e => .error e
      | .ok b => .ok [b] := by
  cases h : translateAssignment cm ccm a <;>
    simp [buildProductCategoryAssignmentsForNewCategories, h]

theorem build_error_of_mem (assigns : List ProductCategoryAssignment)
    (cm : List (Int × String)) (ccm : List (String × Int))
    (a : ProductCategoryAssignment) (ha : a ∈ assigns) (e : String)
    (hx : translateAssignment cm ccm a = .error e) :
    ∃ msg, buildProductCategoryAssignmentsForNewCategories assigns cm ccm = .error msg := by
  induction assigns with
  | nil => cases ha
  | cons b t ih =>
    cases hb : translateAssignment cm ccm b with
    | error eb =>
      exact ⟨eb, by simp [buildProductCategoryAssignmentsForNewCategories, hb]⟩
    | ok vb =>
      rcases List.mem_cons.mp ha with rfl | hat
      · rw [hb] at hx; cases hx
      · obtain ⟨msg, hmsg⟩ := ih hat
        exact ⟨msg, by simp [buildProductCategoryAssignmentsForNewCategories, hb, hmsg]⟩

theorem build_ok_of_forall (assigns : List ProductCategoryAssignment)
    (cm : List (Int × String)) (ccm : List (String × Int))
    (h : ∀ a ∈ assigns, ∃ name newId, jsMapGet cm a.category_id = some name ∧ name ≠ "" ∧
          jsMapGet ccm name = some newId ∧ newId ≠ 0) :
    ∃ out, buildProductCategoryAssignmentsForNewCategories assigns cm ccm = .ok out ∧
      out.length = assigns.length ∧
      ∀ i (h1 : i < assigns.length) (h2 : i < out.length),
        (out.get ⟨i, h2⟩).product_id = (assigns.get ⟨i, h1⟩).product_id ∧
        ∃ name, jsMapGet cm (assigns.get ⟨i, h1⟩).category_id = some name ∧
          jsMapGet ccm name = some (out.get ⟨i, h2⟩).category_id := by
  induction assigns with
  | nil => exact ⟨[], rfl, rfl, fun i h1 => absurd h1 (Nat.not_lt_zero i)⟩
  | cons b t ih =>
    obtain ⟨name, newId, hn1, hn2, hn3, hn4⟩ := h b (List.mem_cons_self _ _)
    obtain ⟨out, hout, hlen, hget⟩ := ih (fun a hat => h a (List.mem_cons_of_mem _ hat))
    refine ⟨{ product_id := b.product_id, category_id := newId } :: out, ?_, by simp [hlen], ?_⟩
    · simp [buildProductCategoryAssignmentsForNewCategories,
        translateAssignment_ok cm ccm b name newId hn1 hn2 hn3 hn4, hout]
    · intro i h1 h2
      match i with
      | 0 => exact ⟨rfl, name, hn1, hn3⟩
      | (j+1) =>
        exact hget j (Nat.lt_of_succ_lt_succ h1) (Nat.lt_of_succ_lt_succ h2)

/-! ### Claims -/

/-- C3: end-to-end remap scenario — with the id-to-name map built from the
source categories `[{1,"A",0},{2,"B",1}]` (as `categoriesMap` at line 211)
and the name-to-id map built from the created categories
`[{10,"A",0},{11,"B",1}]` (as `createdCategoriesMap` at line 215),
`buildProductCategoryAssignmentsForNewCategories` remaps
`[{product_id:7,category_id:2}]` to `[{product_id:7,category_id:11}]`. -/
theorem c3_end_to_end_remap :
    buildProductCategoryAssignmentsForNewCategories
      [{ product_id := 7, category_id := 2 }]
      (mkCategoriesMap
        [{ category_id := 1, name := "A", sort_order := 0 },
         { category_id := 2, name := "B", sort_order := 1 }])
      (mkCreatedCategoriesMap
        [{ category_id := 10, name := "A", sort_order := 0 },
         { category_id := 11, name := "B", sort_order := 1 }]) =
      .ok [{ product_id := 7, category_id := 11 }] := rfl

/-- C4: whenever the configured channel resolves (`getChannelId env = .ok
channelId`), `buildProductChannelAssignmentsForNewChannel` returns a list
of the same length whose elements keep the input `product_id` and carry
`channel_id = channelId`, discarding every original `channel_id`. -/
theorem c4_channel_rewrite :
    ∀ (env : Env) (channelId : Int) (assigns : List ProductChannelAssignment),
      getChannelId env = .ok channelId →
      ∃ out, buildProductChannelAssignmentsForNewChannel env assigns = .ok out ∧
        out.length = assigns.length ∧
        ∀ i (h1 : i < assigns.length) (h2 : i < out.length),
          (out.get ⟨i, h2⟩).product_id = (assigns.get ⟨i, h1⟩).product_id ∧
          (out.get ⟨i, h2⟩).channel_id = channelId := by
  intro env channelId assigns h
  refine ⟨assigns.map (fun a => { product_id := a.product_id, channel_id := channelId }),
    ?_, by simp, ?_⟩
  · simp [buildProductChannelAssignmentsForNewChannel, h]
  · intro i h1 h2
    simp [List.get_eq_getElem, List.getElem_map]

/-- C4 witness: with `BIGCOMMERCE_CHANNEL_ID = "7"` the input
`[{product_id:3,channel_id:1}]` is rewritten onto channel 7. -/
theorem c4_channel_rewrite_witness :
    ∃ out,
      buildProductChannelAssignmentsForNewChannel
        { apiOrigin := none, storeHash := none, accessToken := none, channelId := some "7" }
        [{ product_id := 3, channel_id := 1 }] = .ok out ∧
      out.length = [({ product_id := 3, channel_id := 1 } : ProductChannelAssignment)].length ∧
      ∀ i (h1 : i < [({ product_id := 3, channel_id := 1 } : ProductChannelAssignment)].length)
        (h2 : i < out.length),
        (out.get ⟨i, h2⟩).product_id =
          ([({ product_id := 3, channel_id := 1 } : ProductChannelAssignment)].get ⟨i, h1⟩).product_id ∧
        (out.get ⟨i, h2⟩).channel_id = 7 :=
  c4_channel_rewrite
    { apiOrigin := none, storeHash := none, accessToken := none, channelId := some "7" }
    7 [{ product_id := 3, channel_id := 1 }] rfl

/-- C5: `buildCategoriesForNewTree` keeps the input length, copies each
element's `name` and `sort_order`, and sets `tree_id = newTreeId`; every
output element is exactly the record `{name, sort_order, tree_id}`, whose
type `CategoryForNewTree` has no `category_id` field. -/
theorem c5_categories_for_new_tree :
    ∀ (categories : List Category) (newTreeId : Int),
      (buildCategoriesForNewTree categories newTreeId).length = categories.length ∧
      ∀ i (h1 : i < categories.length)
        (h2 : i < (buildCategoriesForNewTree categories newTreeId).length),
        (buildCategoriesForNewTree categories newTreeId).get ⟨i, h2⟩ =
          { name := (categories.get ⟨i, h1⟩).name,
            sort_order := (categories.get ⟨i, h1⟩).sort_order,
            tree_id := newTreeId } := by
  intro categories newTreeId
  refine ⟨by simp [buildCategoriesForNewTree], ?_⟩
  intro i h1 h2
  simp [buildCategoriesForNewTree, List.get_eq_getElem, List.getElem_map]

/-- C5 witness: a concrete one-element category list re-parented onto tree 9. -/
theorem c5_categories_for_new_tree_witness :
    (buildCategoriesForNewTree [{ category_id := 1, name := "A", sort_order := 0 }] 9).length =
      [({ category_id := 1, name := "A", sort_order := 0 } : Category)].length ∧
    (buildCategoriesForNewTree [{ category_id := 1, name := "A", sort_order := 0 }] 9).get
        ⟨0, by decide⟩ =
      { name := "A", sort_order := 0, tree_id := 9 } :=
  ⟨(c5_categories_for_new_tree [{ category_id := 1, name := "A", sort_order := 0 }] 9).1,
   (c5_categories_for_new_tree [{ category_id := 1, name := "A", sort_order := 0 }] 9).2
     0 (by decide) (by decide)⟩

/-- C6: `getChannelId` returns the parsed integer for every environment
whose `BIGCOMMERCE_CHANNEL_ID` is a set, non-empty string that
`parseInt(·, 10)` parses to a nonzero integer, and fails with a
configuration error for every unset, empty, or unparseable value.  The
embedding of `getChannelId` is a pure function of the environment, so the
failure involves no network call. -/
theorem c6_getChannelId_spec :
    (∀ (env : Env) (s : String) (n : Int),
       env.channelId = some s → s ≠ "" → jsParseInt s = some n → n ≠ 0 →
       getChannelId env = .ok n) ∧
    (∀ env : Env,
       (env.channelId = none ∨ env.channelId = some "" ∨
         ∃ s, env.channelId = some s ∧ jsParseInt s = none) →
       ∃ msg, getChannelId env = .error msg) := by
  constructor
  · intro env s n h1 h2 h3 h4
    simp [getChannelId, h1, h2, h3, h4]
  · intro env h
    rcases h with h | h | ⟨s, hs, hp⟩
    · exact ⟨"BIGCOMMERCE_CHANNEL_ID missing in env", by simp [getChannelId, h]⟩
    · exact ⟨"BIGCOMMERCE_CHANNEL_ID missing in env", by simp [getChannelId, h]⟩
    · by_cases hse : s = ""
      · exact ⟨"BIGCOMMERCE_CHANNEL_ID missing in env", by simp [getChannelId, hs, hse]⟩
      · exact ⟨"BIGCOMMERCE_CHANNEL_ID must be a number", by simp [getChannelId, hs, hse, hp]⟩

/-- C6 witness: `"7"` is accepted and parsed to `7`; `"abc"` is rejected. -/
theorem c6_getChannelId_spec_witness :
    getChannelId
      { apiOrigin := none, storeHash := none, accessToken := none, channelId := some "7" } =
      .ok 7 ∧
    ∃ msg,
      getChannelId
        { apiOrigin := none, storeHash := none, accessToken := none, channelId := some "abc" } =
        .error msg :=
  ⟨c6_getChannelId_spec.1
      { apiOrigin := none, storeHash := none, accessToken := none, channelId := some "7" }
      "7" 7 rfl (by decide) rfl (by decide),
   c6_getChannelId_spec.2
      { apiOrigin := none, storeHash := none, accessToken := none, channelId := some "abc" }
      (Or.inr (Or.inr ⟨"abc", rfl, rfl⟩))⟩

/-- C7: the value `"0"` parses to the integer `0`, which is falsy, so the
second `assert` in `getChannelId` rejects it with the configuration error —
`0` is indistinguishable from a missing number under the truthiness check. -/
theorem c7_zero_channel_rejected :
    getChannelId
      { apiOrigin := none, storeHash := none, accessToken := none, channelId := some "0" } =
      .error "BIGCOMMERCE_CHANNEL_ID must be a number" := rfl

/-- C1 counterexample: with `oldIdToName = {5: "Shoes"}` and
`nameToNewId = {"Shoes": 0}`, the assignment `{product_id:100,
category_id:5}` has its `category_id` as a key of the first map and the
mapped name as a key of the second, yet the function throws (the looked-up
new id `0` is falsy) instead of yielding `[{product_id:100,
category_id:0}]` — refuting the claim's general clause as stated. -/
theorem c1_counterexample :
    buildProductCategoryAssignmentsForNewCategories
        [{ product_id := 100, category_id := 5 }] [(5, "Shoes")] [("Shoes", 0)] =
      .error "Catalyst category ID not found for category name Shoes" ∧
    buildProductCategoryAssignmentsForNewCategories
        [{ product_id := 100, category_id := 5 }] [(5, "Shoes")] [("Shoes", 0)] ≠
      .ok [{ product_id := 100, category_id := 0 }] := by
  constructor
  · rfl
  · intro h
    rw [show buildProductCategoryAssignmentsForNewCategories
          [{ product_id := 100, category_id := 5 }] [(5, "Shoes")] [("Shoes", 0)] =
        .error "Catalyst category ID not found for category name Shoes" from rfl] at h
    cases h

/-- C1 (amended): `buildProductCategoryAssignmentsForNewCategories` is a
pure function of its three arguments; for the maps `{5: "Shoes"}` and
`{"Shoes": 42}` the input `[{product_id:100,category_id:5}]` yields
exactly `[{product_id:100,category_id:42}]`; and for every assignment list
in which each `category_id` maps to a NON-EMPTY name and that name maps to
a NONZERO new id (the truthiness conditions the code's falsy checks
impose), the output pairs each input's `product_id` with the second map's
value for its mapped name. -/
theorem c1_remap_spec :
    buildProductCategoryAssignmentsForNewCategories
        [{ product_id := 100, category_id := 5 }] [(5, "Shoes")] [("Shoes", 42)] =
      .ok [{ product_id := 100, category_id := 42 }] ∧
    ∀ (assigns : List ProductCategoryAssignment)
      (cm : List (Int × String)) (ccm : List (String × Int)),
      (∀ a ∈ assigns, ∃ name newId, jsMapGet cm a.category_id = some name ∧ name ≠ "" ∧
        jsMapGet ccm name = some newId ∧ newId ≠ 0) →
      ∃ out, buildProductCategoryAssignmentsForNewCategories assigns cm ccm = .ok out ∧
        out.length = assigns.length ∧
        ∀ i (h1 : i < assigns.length) (h2 : i < out.length),
          (out.get ⟨i, h2⟩).product_id = (assigns.get ⟨i, h1⟩).product_id ∧
          ∃ name, jsMapGet cm (assigns.get ⟨i, h1⟩).category_id = some name ∧
            jsMapGet ccm name = some (out.get ⟨i, h2⟩).category_id :=
  ⟨rfl, build_ok_of_forall⟩

/-- C1 witness: the general clause applied to the claim's own concrete
maps and input. -/
theorem c1_remap_spec_witness :
    ∃ out,
      buildProductCategoryAssignmentsForNewCategories
        [{ product_id := 100, category_id := 5 }] [(5, "Shoes")] [("Shoes", 42)] = .ok out ∧
      out.length = [({ product_id := 100, category_id := 5 } : ProductCategoryAssignment)].length ∧
      ∀ i (h1 : i < [({ product_id := 100, category_id := 5 } : ProductCategoryAssignment)].length)
        (h2 : i < out.length),
        (out.get ⟨i, h2⟩).product_id =
          ([({ product_id := 100, category_id := 5 } : ProductCategoryAssignment)].get
            ⟨i, h1⟩).product_id ∧
        ∃ name,
          jsMapGet [(5, "Shoes")]
            (([({ product_id := 100, category_id := 5 } : ProductCategoryAssignment)].get
              ⟨i, h1⟩).category_id) = some name ∧
          jsMapGet [("Shoes", 42)] name = some (out.get ⟨i, h2⟩).category_id :=
  c1_remap_spec.2 [{ product_id := 100, category_id := 5 }] [(5, "Shoes")] [("Shoes", 42)]
    (by intro a ha
        rw [List.mem_singleton] at ha
        subst ha
        exact ⟨"Shoes", 42, rfl, by decide, rfl, by decide⟩)

/-- C2: an assignment whose `category_id` is absent from the old-id-to-name
map makes the whole call fail — no partial or default-substituted result —
and the error raised at such an assignment names the offending id (for the
spec's example, id `999`); likewise a mapped name absent from the
name-to-new-id map is a hard error naming that name. -/
theorem c2_untranslatable_is_hard_error :
    (∀ (assigns : List ProductCategoryAssignment)
       (cm : List (Int × String)) (ccm : List (String × Int))
       (a : ProductCategoryAssignment), a ∈ assigns →
       jsMapGet cm a.category_id = none →
       ∃ msg, buildProductCategoryAssignmentsForNewCategories assigns cm ccm = .error msg) ∧
    (∀ (cm : List (Int × String)) (ccm : List (String × Int))
       (a : ProductCategoryAssignment),
       jsMapGet cm a.category_id = none →
       buildProductCategoryAssignmentsForNewCategories [a] cm ccm =
         .error ("Stencil category name not found for category ID " ++ toString a.category_id)) ∧
    buildProductCategoryAssignmentsForNewCategories
        [{ product_id := 100, category_id := 999 }] [(5, "Shoes")] [("Shoes", 42)] =
      .error "Stencil category name not found for category ID 999" ∧
    (∀ (assigns : List ProductCategoryAssignment)
       (cm : List (Int × String)) (ccm : List (String × Int))
       (a : ProductCategoryAssignment) (name : String), a ∈ assigns →
       jsMapGet cm a.category_id = some name → name ≠ "" →
       jsMapGet ccm name = none →
       ∃ msg, buildProductCategoryAssignmentsForNewCategories assigns cm ccm = .error msg) ∧
    (∀ (cm : List (Int × String)) (ccm : List (String × Int))
       (a : ProductCategoryAssignment) (name : String),
       jsMapGet cm a.category_id = some name → name ≠ "" →
       jsMapGet ccm name = none →
       buildProductCategoryAssignmentsForNewCategories [a] cm ccm =
         .error ("Catalyst category ID not found for category name " ++ name)) := by
  refine ⟨?_, ?_, rfl, ?_, ?_⟩
  · intro assigns cm ccm a ha h
    exact build_error_of_mem assigns cm ccm a ha _
      (translateAssignment_error_id cm ccm a (Or.inl h))
  · intro cm ccm a h
    rw [build_singleton, translateAssignment_error_id cm ccm a (Or.inl h)]
  · intro assigns cm ccm a name ha h1 h2 h3
    exact build_error_of_mem assigns cm ccm a ha _
      (translateAssignment_error_name cm ccm a name h1 h2 (Or.inl h3))
  · intro cm ccm a name h1 h2 h3
    rw [build_singleton, translateAssignment_error_name cm ccm a name h1 h2 (Or.inl h3)]

/-- C2 witness: the unknown id `999` and an unknown name, each at a
concrete input. -/
theorem c2_untranslatable_is_hard_error_witness :
    (∃ msg,
      buildProductCategoryAssignmentsForNewCategories
        [{ product_id := 100, category_id := 999 }] [(5, "Shoes")] [("Shoes", 42)] =
        .error msg) ∧
    buildProductCategoryAssignmentsForNewCategories
        [{ product_id := 100, category_id := 999 }] [(5, "Shoes")] [("Shoes", 42)] =
      .error ("Stencil category name not found for category ID " ++ toString (999 : Int)) ∧
    (∃ msg,
      buildProductCategoryAssignmentsForNewCategories
        [{ product_id := 100, category_id := 5 }] [(5, "Shoes")] [("Boots", 42)] =
        .error msg) ∧
    buildProductCategoryAssignmentsForNewCategories
        [{ product_id := 100, category_id := 5 }] [(5, "Shoes")] [("Boots", 42)] =
      .error ("Catalyst category ID not found for category name " ++ "Shoes") :=
  ⟨c2_untranslatable_is_hard_error.1 [{ product_id := 100, category_id := 999 }]
      [(5, "Shoes")] [("Shoes", 42)] { product_id := 100, category_id := 999 }
      (List.mem_singleton.mpr rfl) rfl,
   c2_untranslatable_is_hard_error.2.1 [(5, "Shoes")] [("Shoes", 42)]
      { product_id := 100, category_id := 999 } rfl,
   c2_untranslatable_is_hard_error.2.2.2.1 [{ product_id := 100, category_id := 5 }]
      [(5, "Shoes")] [("Boots", 42)] { product_id := 100, category_id := 5 } "Shoes"
      (List.mem_singleton.mpr rfl) rfl (by decide) rfl,
   c2_untranslatable_is_hard_error.2.2.2.2 [(5, "Shoes")] [("Boots", 42)]
      { product_id := 100, category_id := 5 } "Shoes" rfl (by decide) rfl⟩

/-- C8: for every path suffix, `bigcommerce` builds the request URL
`{origin}/stores/{storeHash}{path}`; with no caller-supplied headers the
headers carry `accept: application/json`, `content-type: application/json`
and `x-auth-token` equal to the configured access token; and on a
header-key collision a caller-supplied value overrides the default
(caller headers are spread after the defaults). -/
theorem c8_bigcommerce_request :
    (∀ (env : Env) (path storeHash accessToken : String),
       env.storeHash = some storeHash → storeHash ≠ "" →
       env.accessToken = some accessToken → accessToken ≠ "" →
       ∃ req, bigcommerce env path [] = .ok req ∧
         req.url = getApiOrigin env ++ "/stores/" ++ storeHash ++ path ∧
         jsMapGet req.headers "accept" = some "application/json" ∧
         jsMapGet req.headers "content-type" = some "application/json" ∧
         jsMapGet req.headers "x-auth-token" = some accessToken) ∧
    (∀ (env : Env) (path : String) (callerHeaders : List (String × String))
       (req : Request) (k v : String),
       bigcommerce env path callerHeaders = .ok req →
       jsMapGet callerHeaders k = some v →
       jsMapGet req.headers k = some v) := by
  constructor
  · intro env path storeHash accessToken h1 h2 h3 h4
    refine ⟨{ url := getApiOrigin env ++ "/stores/" ++ storeHash ++ path,
              headers := [("accept", "application/json"), ("content-type", "application/json"),
                ("x-auth-token", accessToken)] ++ [] }, ?_, rfl, ?_, ?_, ?_⟩
    · simp [bigcommerce, getStoreHash, getAccessToken, h1, h2, h3, h4]
    all_goals simp [jsMapGet]
  · intro env path callerHeaders req k v hb hc
    unfold bigcommerce at hb
    cases hsh : getStoreHash env with
    | error e => rw [hsh] at hb; cases hb
    | ok sh =>
      cases hat : getAccessToken env with
      | error e => rw [hsh, hat] at hb; cases hb
      | ok tok =>
        rw [hsh, hat] at hb
        injection hb with hb
        subst hb
        rw [jsMapGet_append, hc]

/-- C8 witness: the spec's call — path `/v3/catalog/trees`, store hash
`abc`, token `tok` — and a caller-supplied `accept` header overriding the
default on the merged header list. -/
theorem c8_bigcommerce_request_witness :
    (∃ req,
      bigcommerce ⟨none, some "abc", some "tok", none⟩ "/v3/catalog/trees" [] = .ok req ∧
      req.url =
        getApiOrigin ⟨none, some "abc", some "tok", none⟩ ++ "/stores/" ++ "abc" ++
          "/v3/catalog/trees" ∧
      jsMapGet req.headers "accept" = some "application/json" ∧
      jsMapGet req.headers "content-type" = some "application/json" ∧
      jsMapGet req.headers "x-auth-token" = some "tok") ∧
    jsMapGet
      (Request.headers
        ⟨"https://api.bigcommerce.com/stores/abc/v3/catalog/trees",
         [("accept", "application/json"), ("content-type", "application/json"),
          ("x-auth-token", "tok"), ("accept", "text/html")]⟩)
      "accept" = some "text/html" :=
  ⟨c8_bigcommerce_request.1 ⟨none, some "abc", some "tok", none⟩
      "/v3/catalog/trees" "abc" "tok" rfl (by decide) rfl (by decide),
   c8_bigcommerce_request.2 ⟨none, some "abc", some "tok", none⟩
      "/v3/catalog/trees" [("accept", "text/html")]
      ⟨"https://api.bigcommerce.com/stores/abc/v3/catalog/trees",
       [("accept", "application/json"), ("content-type", "application/json"),
        ("x-auth-token", "tok"), ("accept", "text/html")]⟩
      "accept" "text/html" rfl rfl⟩

/-- C9 counterexample: created categories `[{10,"A",0},{0,"A",1}]` share
the name `"A"`; the name-to-new-id map does bind `"A"` to the later
entry's id `0`, but an assignment referencing `"A"` is NOT remapped to
that id — the build throws, because the looked-up id `0` is falsy —
refuting the claim's "every assignment referencing that name is remapped
to the later category's id". -/
theorem c9_counterexample :
    jsMapGet
        (mkCreatedCategoriesMap
          [{ category_id := 10, name := "A", sort_order := 0 },
           { category_id := 0, name := "A", sort_order := 1 }]) "A" = some 0 ∧
    buildProductCategoryAssignmentsForNewCategories
        [{ product_id := 7, category_id := 1 }] [(1, "A")]
        (mkCreatedCategoriesMap
          [{ category_id := 10, name := "A", sort_order := 0 },
           { category_id := 0, name := "A", sort_order := 1 }]) =
      .error "Catalyst category ID not found for category name A" ∧
    buildProductCategoryAssignmentsForNewCategories
        [{ product_id := 7, category_id := 1 }] [(1, "A")]
        (mkCreatedCategoriesMap
          [{ category_id := 10, name := "A", sort_order := 0 },
           { category_id := 0, name := "A", sort_order := 1 }]) ≠
      .ok [{ product_id := 7, category_id := 0 }] := by
  refine ⟨rfl, rfl, ?_⟩
  intro h
  rw [show buildProductCategoryAssignmentsForNewCategories
        [{ product_id := 7, category_id := 1 }] [(1, "A")]
        (mkCreatedCategoriesMap
          [{ category_id := 10, name := "A", sort_order := 0 },
           { category_id := 0, name := "A", sort_order := 1 }]) =
      .error "Catalyst category ID not found for category name A" from rfl] at h
  cases h

/-- C9 (amended): when the created-categories list contains two categories
with the same name, the name-to-new-id map built from it (as
`createdCategoriesMap`) binds that name to the later entry's
`category_id`, the later duplicate silently shadowing the earlier one with
no error raised in the map construction; and every assignment referencing
that name is remapped to the later category's id PROVIDED the shared name
is non-empty and the later entry's id is nonzero (otherwise the falsy
lookup check throws instead). -/
theorem c9_duplicate_name_shadowing :
    ∀ (pre mid post : List Category) (c1 c2 : Category),
      c1.name = c2.name →
      (∀ c ∈ post, c.name ≠ c2.name) →
      jsMapGet (mkCreatedCategoriesMap ((pre ++ c1 :: mid) ++ c2 :: post)) c2.name =
        some c2.category_id ∧
      ∀ (cm : List (Int × String)) (a : ProductCategoryAssignment),
        jsMapGet cm a.category_id = some c2.name → c2.name ≠ "" → c2.category_id ≠ 0 →
        buildProductCategoryAssignmentsForNewCategories [a] cm
          (mkCreatedCategoriesMap ((pre ++ c1 :: mid) ++ c2 :: post)) =
          .ok [{ product_id := a.product_id, category_id := c2.category_id }] := by
  intro pre mid post c1 c2 hname hpost
  have hpostmap : jsMapGet (mkCreatedCategoriesMap post) c2.name = none := by
    apply jsMapGet_eq_none
    intro p hp
    simp only [mkCreatedCategoriesMap, List.mem_map] at hp
    obtain ⟨c, hc, rfl⟩ := hp
    exact hpost c hc
  have hsplit : mkCreatedCategoriesMap ((pre ++ c1 :: mid) ++ c2 :: post) =
      mkCreatedCategoriesMap (pre ++ c1 :: mid) ++
        (c2.name, c2.category_id) :: mkCreatedCategoriesMap post := by
    simp [mkCreatedCategoriesMap]
  have hbind : jsMapGet (mkCreatedCategoriesMap ((pre ++ c1 :: mid) ++ c2 :: post)) c2.name =
      some c2.category_id := by
    rw [hsplit, jsMapGet_append]
    simp [jsMapGet, hpostmap]
  refine ⟨hbind, ?_⟩
  intro cm a hcm hne hnz
  rw [build_singleton, translateAssignment_ok cm _ a c2.name c2.category_id hcm hne hbind hnz]

/-- C9 witness: created categories `[{10,"A",0},{11,"A",1}]`; the map binds
`"A"` to `11` and the assignment `{7,1}` (with `1 ↦ "A"`) lands on `11`. -/
theorem c9_duplicate_name_shadowing_witness :
    jsMapGet
        (mkCreatedCategoriesMap
          (([] ++ { category_id := 10, name := "A", sort_order := 0 } :: []) ++
            { category_id := 11, name := "A", sort_order := 1 } :: [])) "A" = some 11 ∧
    buildProductCategoryAssignmentsForNewCategories
        [{ product_id := 7, category_id := 1 }] [(1, "A")]
        (mkCreatedCategoriesMap
          (([] ++ { category_id := 10, name := "A", sort_order := 0 } :: []) ++
            { category_id := 11, name := "A", sort_order := 1 } :: [])) =
      .ok [{ product_id := 7, category_id := 11 }] :=
  ⟨(c9_duplicate_name_shadowing [] [] []
      { category_id := 10, name := "A", sort_order := 0 }
      { category_id := 11, name := "A", sort_order := 1 } rfl
      (by intro c hc; cases hc)).1,
   (c9_duplicate_name_shadowing [] [] []
      { category_id := 10, name := "A", sort_order := 0 }
      { category_id := 11, name := "A", sort_order := 1 } rfl
      (by intro c hc; cases hc)).2 [(1, "A")] { product_id := 7, category_id := 1 }
      rfl (by decide) (by decide)⟩

/-- C10: the falsy-lookup edge cases — a `category_id` that is present in
the old-id-to-name map but maps to the empty-string name, or a name that
is present in the name-to-new-id map but maps to the id `0`, make
`buildProductCategoryAssignmentsForNewCategories` throw its respective
"not found" error even though the key is present. -/
theorem c10_falsy_lookup_error :
    (∀ (cm : List (Int × String)) (ccm : List (String × Int))
       (a : ProductCategoryAssignment),
       jsMapGet cm a.category_id = some "" →
       buildProductCategoryAssignmentsForNewCategories [a] cm ccm =
         .error ("Stencil category name not found for category ID " ++
           toString a.category_id)) ∧
    (∀ (cm : List (Int × String)) (ccm : List (String × Int))
       (a : ProductCategoryAssignment) (name : String),
       jsMapGet cm a.category_id = some name → name ≠ "" →
       jsMapGet ccm name = some 0 →
       buildProductCategoryAssignmentsForNewCategories [a] cm ccm =
         .error ("Catalyst category ID not found for category name " ++ name)) := by
  constructor
  · intro cm ccm a h
    rw [build_singleton, translateAssignment_error_id cm ccm a (Or.inr h)]
  · intro cm ccm a name h1 h2 h3
    rw [build_singleton, translateAssignment_error_name cm ccm a name h1 h2 (Or.inr h3)]

/-- C10 witness: `5 ↦ ""` (present, empty name) throws the id error;
`"Shoes" ↦ 0` (present, zero id) throws the name error. -/
theorem c10_falsy_lookup_error_witness :
    buildProductCategoryAssignmentsForNewCategories
        [{ product_id := 100, category_id := 5 }] [(5, "")] [] =
      .error ("Stencil category name not found for category ID " ++ toString (5 : Int)) ∧
    buildProductCategoryAssignmentsForNewCategories
        [{ product_id := 100, category_id := 5 }] [(5, "Shoes")] [("Shoes", 0)] =
      .error ("Catalyst category ID not found for category name " ++ "Shoes") :=
  ⟨c10_falsy_lookup_error.1 [(5, "")] [] { product_id := 100, category_id := 5 } rfl,
   c10_falsy_lookup_error.2 [(5, "Shoes")] [("Shoes", 0)]
     { product_id := 100, category_id := 5 } "Shoes" rfl (by decide) rfl⟩
